import Mathlib

/-!
Verification of the loan-application decision engine of this repository.

The backend route file defines the Zod payload schema `ApplySchema`, the pure
rules `isAdmissible` and `computeScore`, and the POST `/apply` handler, which
registers a row in state `pendiente`, decides the application, updates the row,
and answers with the JSON object containing the fields `id`, `status` and
`scoring`. The client view file defines `clamp`, `estimateMonthlyPayment` and a
client-side `computeScore`.

Modelling conventions of the shallow embedding:
* JavaScript numbers are modelled as rationals (`ℚ`); `Math.round` is Mathlib's
  `round` (both equal `⌊x + 1/2⌋`, round half up). Division by zero follows the
  rational convention `x / 0 = 0`.
* A JSON payload field that is absent (or not of the required type, which Zod
  rejects the same way) is `Option.none`.
* Zod's email format check is third-party library code, so it is kept abstract:
  the validator and the handler are parametrised by `emailOk : String → Bool`.
* The database is a list of rows plus the next serial id; the handler is a pure
  function from payload and database to response, new database, and a flag that
  records whether the decision rules (`isAdmissible` / `computeScore`) ran.
* `term_months` of `estimateMonthlyPayment` is modelled as an integer exponent
  (the declared domain of the estimator is an integer number of months).
-/

namespace Backend

/-- Row status values of the `loan_requests` table:
`pendiente | inadmisible | rechazada | aprobada`. -/
inductive Status where
  | pendiente
  | inadmisible
  | rechazada
  | aprobada
deriving DecidableEq, Repr

/-- The string stored in the `status` column / sent in the JSON response. -/
def statusText : Status → String
  | .pendiente => "pendiente"
  | .inadmisible => "inadmisible"
  | .rechazada => "rechazada"
  | .aprobada => "aprobada"

/-- `function isAdmissible({ income = 0, amount })`:
`if (!income) return false; return amount <= income * 20;`.
An absent `income` defaults to 0; `!income` holds exactly at 0. -/
def isAdmissible (income : Option ℚ) (amount : ℚ) : Bool :=
  let inc := income.getD 0
  if inc = 0 then false else decide (amount ≤ inc * 20)

/-- `function computeScore({ income = 0, amount, term_months })`:
`const term = term_months || 24;`
`const base = 60 + income / (amount / term);`
`const s = Math.round(Math.max(1, Math.min(100, base)));` -/
def computeScore (income : Option ℚ) (amount term_months : ℚ) : ℤ :=
  let inc := income.getD 0
  let term := if term_months = 0 then 24 else term_months
  let base := 60 + inc / (amount / term)
  round (max 1 (min 100 base))

/-- Raw JSON body of POST `/loans/apply`; `none` marks an absent field. -/
structure Payload where
  rut : Option String
  full_name : Option String
  email : Option String
  amount : Option ℚ
  term_months : Option ℚ
  income : Option ℚ

/-- A payload accepted by `ApplySchema.safeParse`. -/
structure ParsedPayload where
  rut : String
  full_name : String
  email : String
  amount : ℚ
  term_months : ℚ
  income : Option ℚ
deriving DecidableEq

/-- `income: z.number().positive().optional()`: valid when absent, and when
present only if strictly positive. -/
def incomeOk : Option ℚ → Bool
  | none => true
  | some i => decide (0 < i)

/-- `ApplySchema.safeParse`: `rut: z.string().min(3)`,
`full_name: z.string().min(3)`, `email: z.string().email()` (abstract check
`emailOk`), `amount: z.number().positive()`,
`term_months: z.number().int().positive()`,
`income: z.number().positive().optional()`.
Returns `none` when any constraint fails. -/
def validate (emailOk : String → Bool) (p : Payload) : Option ParsedPayload :=
  match p.rut, p.full_name, p.email, p.amount, p.term_months with
  | some rut, some full_name, some email, some amount, some term_months =>
    if 3 ≤ rut.length ∧ 3 ≤ full_name.length ∧ emailOk email = true ∧
        0 < amount ∧ term_months.den = 1 ∧ 0 < term_months ∧
        incomeOk p.income = true then
      some ⟨rut, full_name, email, amount, term_months, p.income⟩
    else none
  | _, _, _, _, _ => none

/-- A row of the `loan_requests` table (timestamps omitted). -/
structure Row where
  id : ℕ
  rut : String
  full_name : String
  email : String
  amount : ℚ
  term_months : ℚ
  income : Option ℚ
  status : Status
  scoring : Option ℤ
deriving DecidableEq

/-- The `loan_requests` table plus the next value of its SERIAL id. -/
structure DB where
  rows : List Row
  nextId : ℕ
deriving DecidableEq

/-- A fresh database: no rows, SERIAL starts at 1. -/
def DB.empty : DB := ⟨[], 1⟩

/-- The INSERT of the handler: register the request with status `pendiente`
and `scoring` NULL, receiving the assigned serial id. -/
def insertPending (p : ParsedPayload) (db : DB) : Row × DB :=
  let row : Row :=
    ⟨db.nextId, p.rut, p.full_name, p.email, p.amount, p.term_months, p.income,
      .pendiente, none⟩
  (row, ⟨db.rows ++ [row], db.nextId + 1⟩)

/-- The UPDATE of the handler: write the decided status and scoring into the
row with the given id. -/
def updateDecision (db : DB) (id : ℕ) (st : Status) (sc : Option ℤ) : DB :=
  ⟨db.rows.map fun r =>
      if r.id = id then { r with status := st, scoring := sc } else r,
    db.nextId⟩

/-- The decision block of the handler:
`let status = "inadmisible"; let scoring = null;`
`if (isAdmissible(payload)) { scoring = computeScore(payload);`
`  status = scoring >= 55 ? "aprobada" : "rechazada"; }` -/
def decideApplication (income : Option ℚ) (amount term_months : ℚ) :
    Status × Option ℤ :=
  if isAdmissible income amount then
    let scoring := computeScore income amount term_months
    (if 55 ≤ scoring then .aprobada else .rechazada, some scoring)
  else (.inadmisible, none)

/-- A JSON value occurring in the response object. -/
inductive JsonValue where
  | jnum (n : ℤ)
  | jstr (s : String)
  | jnull
deriving DecidableEq

/-- The 201 response body: `{ id: reqRow.id, status: updated[0].status,`
`scoring: updated[0].scoring }`. -/
def responseJson (id : ℕ) (st : Status) (sc : Option ℤ) :
    List (String × JsonValue) :=
  [("id", .jnum id),
   ("status", .jstr (statusText st)),
   ("scoring", match sc with | some s => .jnum s | none => .jnull)]

/-- Outcome of the handler as seen by the caller: the 400
`{ error: "invalid_payload", ... }` answer, or the 201 answer with its JSON
object. -/
inductive HandlerAnswer where
  | invalidPayload
  | created (json : List (String × JsonValue))
deriving DecidableEq

/-- The POST `/apply` handler: parse the body; on failure answer 400 at once;
on success insert the `pendiente` row, decide, update the row and answer 201.
The final `Bool` records whether the decision rules ran. -/
def applyHandler (emailOk : String → Bool) (body : Payload) (db : DB) :
    HandlerAnswer × DB × Bool :=
  match validate emailOk body with
  | none => (.invalidPayload, db, false)
  | some p =>
    let (row, db1) := insertPending p db
    let (st, sc) := decideApplication p.income p.amount p.term_months
    let db2 := updateDecision db1 row.id st sc
    (.created (responseJson row.id st sc), db2, true)

end Backend

namespace Client

/-- `const clamp = (n, min, max) => Math.min(max, Math.max(min, n));` -/
def clamp (n mn mx : ℤ) : ℤ := min mx (max mn n)

/-- `function estimateMonthlyPayment(capital, meses, tasaMensual)`:
`if (!capital || !meses) return 0;`
`if (tasaMensual === 0) return Math.round(capital / meses);`
`const cuota = (capital * r) / (1 - Math.pow(1 + r, -meses));`
`return Math.round(cuota);` -/
def estimateMonthlyPayment (capital : ℚ) (meses : ℤ) (tasaMensual : ℚ) : ℤ :=
  if capital = 0 ∨ meses = 0 then 0
  else if tasaMensual = 0 then round (capital / (meses : ℚ))
  else round ((capital * tasaMensual) / (1 - (1 + tasaMensual) ^ (-meses)))

/-- `function computeScore(ingreso, monto, term)`:
`const safeTerm = term || 24;`
`if (!monto || ingreso < 0) return 1;`
`const base = 60 + ingreso / (monto / safeTerm);`
`return clamp(Math.round(base), 1, 100);` -/
def computeScore (ingreso monto term : ℚ) : ℤ :=
  let safeTerm := if term = 0 then 24 else term
  if monto = 0 ∨ ingreso < 0 then 1
  else clamp (round (60 + ingreso / (monto / safeTerm))) 1 100

end Client

/-! ## Helper lemmas -/

/-- `round` is monotone on `ℚ`. -/
theorem round_mono_rat {a b : ℚ} (h : a ≤ b) : round a ≤ round b := by
  rw [round_eq, round_eq]
  exact Int.floor_mono (by linarith)

/-- Rounding commutes with clamping to the integer-bounded interval `[1, 100]`:
clamping first and rounding after gives the same integer as rounding first and
clamping after. -/
theorem round_clamp_comm (b : ℚ) :
    min 100 (max 1 (round b)) = round (max 1 (min 100 b)) := by
  rcases le_total b 1 with hb1 | hb1
  · have hmin : min (100 : ℚ) b = b := min_eq_right (by linarith)
    have hmax : max (1 : ℚ) b = 1 := max_eq_left hb1
    have hrb : round b ≤ 1 := by
      have := round_mono_rat hb1
      simpa using this
    rw [hmin, hmax, round_one]
    have h1 : max (1 : ℤ) (round b) = 1 := max_eq_left hrb
    rw [h1]
    exact min_eq_right (by norm_num)
  · rcases le_total b 100 with hb2 | hb2
    · have hmin : min (100 : ℚ) b = b := min_eq_right hb2
      have hmax : max (1 : ℚ) b = b := max_eq_right hb1
      have h1 : (1 : ℤ) ≤ round b := by
        have := round_mono_rat hb1
        simpa using this
      have h2 : round b ≤ 100 := by
        have := round_mono_rat hb2
        simpa using this
      rw [hmin, hmax, max_eq_right h1, min_eq_right h2]
    · have hmin : min (100 : ℚ) b = 100 := min_eq_left hb2
      have hrb : (100 : ℤ) ≤ round b := by
        have := round_mono_rat hb2
        simpa using this
      rw [hmin, max_eq_right (by linarith : (1 : ℚ) ≤ 100)]
      have h1 : max (1 : ℤ) (round b) = round b :=
        max_eq_right (by linarith)
      rw [h1, min_eq_left hrb]
      simp

/-- The server-side score is always in `[1, 100]`, for any inputs. -/
theorem computeScore_bounds (income : Option ℚ) (amount term_months : ℚ) :
    1 ≤ Backend.computeScore income amount term_months ∧
      Backend.computeScore income amount term_months ≤ 100 := by
  unfold Backend.computeScore
  set base : ℚ :=
    60 + income.getD 0 /
      (amount / (if term_months = 0 then 24 else term_months)) with hbase
  have h1 : (1 : ℚ) ≤ max 1 (min 100 base) := le_max_left 1 _
  have h2 : max (1 : ℚ) (min 100 base) ≤ 100 :=
    max_le (by norm_num) (min_le_left _ _)
  constructor
  · have := round_mono_rat h1
    simpa using this
  · have := round_mono_rat h2
    simpa using this

/-! ## Claims -/

/-- C1: for every `income ≥ 0`, `amount > 0` and `term > 0`, the server-side
`computeScore` returns `60 + income / (amount / term)` rounded to the nearest
integer and then clamped to `[1, 100]`, and the result always lies in
`[1, 100]`. (The code clamps before rounding; with the integer bounds 1 and
100 the two orders coincide, see `round_clamp_comm`.) -/
theorem claim_C1_computeScore_round_clamp (income amount term : ℚ)
    (h1 : 0 ≤ income) (h2 : 0 < amount) (h3 : 0 < term) :
    Backend.computeScore (some income) amount term
        = min 100 (max 1 (round (60 + income / (amount / term)))) ∧
      1 ≤ Backend.computeScore (some income) amount term ∧
      Backend.computeScore (some income) amount term ≤ 100 := by
  refine ⟨?_, (computeScore_bounds _ _ _).1, (computeScore_bounds _ _ _).2⟩
  have hterm : (if term = 0 then (24 : ℚ) else term) = term := if_neg h3.ne'
  simp only [Backend.computeScore, Option.getD_some, hterm]
  exact (round_clamp_comm _).symm

/-- Witness for C1 at `income = 1000000`, `amount = 1500000`, `term = 24`. -/
theorem claim_C1_witness :
    Backend.computeScore (some 1000000) 1500000 24
        = min 100 (max 1 (round ((60 : ℚ) + 1000000 / (1500000 / 24)))) ∧
      1 ≤ Backend.computeScore (some 1000000) 1500000 24 ∧
      Backend.computeScore (some 1000000) 1500000 24 ≤ 100 :=
  claim_C1_computeScore_round_clamp 1000000 1500000 24 (by norm_num)
    (by norm_num) (by norm_num)

/-- C2: for every positive `amount`, `isAdmissible` is false when `income` is
absent, zero or negative, and for `income > 0` it is true iff
`amount ≤ income * 20`. -/
theorem claim_C2_isAdmissible_rule (amount : ℚ) (hpos : 0 < amount) :
    Backend.isAdmissible none amount = false ∧
      (∀ income : ℚ, income ≤ 0 →
        Backend.isAdmissible (some income) amount = false) ∧
      (∀ income : ℚ, 0 < income →
        (Backend.isAdmissible (some income) amount = true ↔
          amount ≤ income * 20)) := by
  refine ⟨by simp [Backend.isAdmissible], ?_, ?_⟩
  · intro income hinc
    simp only [Backend.isAdmissible, Option.getD_some]
    by_cases h0 : income = 0
    · rw [if_pos h0]
    · rw [if_neg h0]
      have hlt : income < 0 := lt_of_le_of_ne hinc h0
      simp only [decide_eq_false_iff_not, not_le]
      nlinarith
  · intro income hinc
    simp only [Backend.isAdmissible, Option.getD_some]
    rw [if_neg hinc.ne']
    exact decide_eq_true_iff

/-- Witness for C2 at `amount = 500000`. -/
theorem claim_C2_witness :
    Backend.isAdmissible none 500000 = false ∧
      (∀ income : ℚ, income ≤ 0 →
        Backend.isAdmissible (some income) 500000 = false) ∧
      (∀ income : ℚ, 0 < income →
        (Backend.isAdmissible (some income) 500000 = true ↔
          (500000 : ℚ) ≤ income * 20)) :=
  claim_C2_isAdmissible_rule 500000 (by norm_num)

/-- C7: on the shared domain `income ≥ 0`, `amount > 0`, `term > 0` the
client-side `computeScore` (round then clamp) and the server-side
`computeScore` (clamp then round) return the same integer. -/
theorem claim_C7_client_server_agree (income amount term : ℚ)
    (h1 : 0 ≤ income) (h2 : 0 < amount) (h3 : 0 < term) :
    Client.computeScore income amount term
        = Backend.computeScore (some income) amount term := by
  have hterm : (if term = 0 then (24 : ℚ) else term) = term := if_neg h3.ne'
  have hguard : ¬(amount = 0 ∨ income < 0) := by
    push_neg
    exact ⟨h2.ne', h1⟩
  simp only [Client.computeScore, Backend.computeScore, Client.clamp,
    Option.getD_some, hterm]
  rw [if_neg hguard]
  exact round_clamp_comm _

/-- Witness for C7 at `income = 10000000`, `amount = 100000`, `term = 12`. -/
theorem claim_C7_witness :
    Client.computeScore 10000000 100000 12
        = Backend.computeScore (some 10000000) 100000 12 :=
  claim_C7_client_server_agree 10000000 100000 12 (by norm_num) (by norm_num)
    (by norm_num)

/-- The decision block on an inadmissible payload. -/
theorem decideApplication_neg (income : Option ℚ) (amount term : ℚ)
    (h : Backend.isAdmissible income amount = false) :
    Backend.decideApplication income amount term
      = (Backend.Status.inadmisible, none) := by
  simp [Backend.decideApplication, h]

/-- The decision block on an admissible payload. -/
theorem decideApplication_pos (income : Option ℚ) (amount term : ℚ)
    (h : Backend.isAdmissible income amount = true) :
    Backend.decideApplication income amount term
      = (if 55 ≤ Backend.computeScore income amount term
            then Backend.Status.aprobada else Backend.Status.rechazada,
         some (Backend.computeScore income amount term)) := by
  simp [Backend.decideApplication, h]

/-- C3: the decision step assigns `inadmisible` with null score when
`isAdmissible` is false; otherwise, with `score = computeScore`, it assigns
`aprobada` when `score ≥ 55` (in particular at score 55) and `rechazada` when
`score < 55` (in particular at score 54). -/
theorem claim_C3_decision_rule (income : Option ℚ) (amount term : ℚ) :
    (Backend.isAdmissible income amount = false →
      Backend.decideApplication income amount term
        = (Backend.Status.inadmisible, none)) ∧
    (Backend.isAdmissible income amount = true →
      Backend.decideApplication income amount term
        = (if 55 ≤ Backend.computeScore income amount term
              then Backend.Status.aprobada else Backend.Status.rechazada,
           some (Backend.computeScore income amount term))) ∧
    (Backend.isAdmissible income amount = true →
      Backend.computeScore income amount term = 55 →
      (Backend.decideApplication income amount term).1
        = Backend.Status.aprobada) ∧
    (Backend.isAdmissible income amount = true →
      Backend.computeScore income amount term = 54 →
      (Backend.decideApplication income amount term).1
        = Backend.Status.rechazada) := by
  refine ⟨fun h => decideApplication_neg income amount term h,
    fun h => decideApplication_pos income amount term h, ?_, ?_⟩
  · intro h h55
    rw [decideApplication_pos income amount term h, h55]
    norm_num
  · intro h h54
    rw [decideApplication_pos income amount term h, h54]
    norm_num

/-- Witness for C3 at `income = 1000000`, `amount = 1500000`, `term = 24`
(scenario A: admissible, score 76, approved). -/
theorem claim_C3_witness :
    (Backend.isAdmissible (some 1000000) 1500000 = false →
      Backend.decideApplication (some 1000000) 1500000 24
        = (Backend.Status.inadmisible, none)) ∧
    (Backend.isAdmissible (some 1000000) 1500000 = true →
      Backend.decideApplication (some 1000000) 1500000 24
        = (if 55 ≤ Backend.computeScore (some 1000000) 1500000 24
              then Backend.Status.aprobada else Backend.Status.rechazada,
           some (Backend.computeScore (some 1000000) 1500000 24))) ∧
    (Backend.isAdmissible (some 1000000) 1500000 = true →
      Backend.computeScore (some 1000000) 1500000 24 = 55 →
      (Backend.decideApplication (some 1000000) 1500000 24).1
        = Backend.Status.aprobada) ∧
    (Backend.isAdmissible (some 1000000) 1500000 = true →
      Backend.computeScore (some 1000000) 1500000 24 = 54 →
      (Backend.decideApplication (some 1000000) 1500000 24).1
        = Backend.Status.rechazada) :=
  claim_C3_decision_rule (some 1000000) 1500000 24

/-- C4: for every decided application, the score is non-null iff the status is
`rechazada` or `aprobada`, the score is null iff the status is `inadmisible`,
and every non-null score is an integer in `[1, 100]`. -/
theorem claim_C4_score_status_invariant (income : Option ℚ)
    (amount term : ℚ) :
    ((Backend.decideApplication income amount term).2 ≠ none ↔
      (Backend.decideApplication income amount term).1
          = Backend.Status.rechazada ∨
        (Backend.decideApplication income amount term).1
          = Backend.Status.aprobada) ∧
    ((Backend.decideApplication income amount term).2 = none ↔
      (Backend.decideApplication income amount term).1
        = Backend.Status.inadmisible) ∧
    (∀ s : ℤ, (Backend.decideApplication income amount term).2 = some s →
      1 ≤ s ∧ s ≤ 100) := by
  cases hb : Backend.isAdmissible income amount
  · rw [decideApplication_neg income amount term hb]
    refine ⟨by simp, by simp, ?_⟩
    intro s hs
    simp at hs
  · rw [decideApplication_pos income amount term hb]
    by_cases h55 : 55 ≤ Backend.computeScore income amount term
    · rw [if_pos h55]
      refine ⟨by simp, by simp, ?_⟩
      intro s hs
      simp only [Option.some.injEq] at hs
      rw [← hs]
      exact computeScore_bounds income amount term
    · rw [if_neg h55]
      refine ⟨by simp, by simp, ?_⟩
      intro s hs
      simp only [Option.some.injEq] at hs
      rw [← hs]
      exact computeScore_bounds income amount term

/-- Witness for C4 at `income = 100000`, `amount = 3000000`, `term = 36`
(scenario D: inadmissible). -/
theorem claim_C4_witness :
    ((Backend.decideApplication (some 100000) 3000000 36).2 ≠ none ↔
      (Backend.decideApplication (some 100000) 3000000 36).1
          = Backend.Status.rechazada ∨
        (Backend.decideApplication (some 100000) 3000000 36).1
          = Backend.Status.aprobada) ∧
    ((Backend.decideApplication (some 100000) 3000000 36).2 = none ↔
      (Backend.decideApplication (some 100000) 3000000 36).1
        = Backend.Status.inadmisible) ∧
    (∀ s : ℤ, (Backend.decideApplication (some 100000) 3000000 36).2 = some s →
      1 ≤ s ∧ s ≤ 100) :=
  claim_C4_score_status_invariant (some 100000) 3000000 36

/-- C8: with zero rate the estimator is straight-line `round(principal / n)`,
and it returns 0 when the principal or the term is zero. (Division by zero
follows the rational convention `x / 0 = 0`, under which the zero-rate equation
also covers `n = 0` consistently with the zero-term clause.) -/
theorem claim_C8_estimator_degenerate_cases :
    (∀ p : ℚ, ∀ n : ℤ,
      Client.estimateMonthlyPayment p n 0 = round (p / (n : ℚ))) ∧
    (∀ n : ℤ, ∀ r : ℚ, Client.estimateMonthlyPayment 0 n r = 0) ∧
    (∀ p r : ℚ, Client.estimateMonthlyPayment p 0 r = 0) := by
  refine ⟨?_, ?_, ?_⟩
  · intro p n
    unfold Client.estimateMonthlyPayment
    by_cases hp : p = 0
    · subst hp
      simp
    · by_cases hn : n = 0
      · subst hn
        simp
      · rw [if_neg (by tauto), if_pos rfl]
  · intro n r
    simp [Client.estimateMonthlyPayment]
  · intro p r
    simp [Client.estimateMonthlyPayment]

/-- C9: for `principal > 0`, `termMonths ≥ 1` and `rate > 0` the estimator
takes the amortized branch `round(p·r / (1 - (1+r)^(-n)))`, and the divisor
`1 - (1+r)^(-n)` is strictly positive, so this branch never divides by zero. -/
theorem claim_C9_amortized_branch_safe (p : ℚ) (n : ℤ) (r : ℚ)
    (h1 : 0 < p) (h2 : 1 ≤ n) (h3 : 0 < r) :
    Client.estimateMonthlyPayment p n r
        = round ((p * r) / (1 - (1 + r) ^ (-n))) ∧
      0 < 1 - (1 + r) ^ (-n) := by
  have hn0 : n ≠ 0 := by omega
  constructor
  · unfold Client.estimateMonthlyPayment
    rw [if_neg (by push_neg; exact ⟨h1.ne', hn0⟩), if_neg h3.ne']
  · have h1r : (1 : ℚ) < 1 + r := by linarith
    have hpow : (1 : ℚ) < (1 + r) ^ n := one_lt_zpow₀ h1r (by omega)
    have hinv : ((1 + r) ^ n)⁻¹ < 1 := inv_lt_one_of_one_lt₀ hpow
    have : (1 + r) ^ (-n) = ((1 + r) ^ n)⁻¹ := zpow_neg (1 + r) n
    rw [this]
    linarith

/-- Witness for C9 at `p = 1500000`, `n = 24`, `r = 19/1000`. -/
theorem claim_C9_witness :
    Client.estimateMonthlyPayment 1500000 24 (19 / 1000)
        = round ((1500000 * (19 / 1000) : ℚ)
            / (1 - (1 + 19 / 1000) ^ (-(24 : ℤ)))) ∧
      (0 : ℚ) < 1 - (1 + 19 / 1000) ^ (-(24 : ℤ)) :=
  claim_C9_amortized_branch_safe 1500000 24 (19 / 1000) (by norm_num)
    (by norm_num) (by norm_num)

/-- The handler answer on a payload accepted by validation. -/
theorem applyHandler_valid_answer (emailOk : String → Bool)
    (body : Backend.Payload) (db : Backend.DB) (p : Backend.ParsedPayload)
    (hv : Backend.validate emailOk body = some p) :
    (Backend.applyHandler emailOk body db).1
      = Backend.HandlerAnswer.created
          (Backend.responseJson db.nextId
            (Backend.decideApplication p.income p.amount p.term_months).1
            (Backend.decideApplication p.income p.amount p.term_months).2) := by
  unfold Backend.applyHandler
  rw [hv]
  rfl

/-- The decided status is always one of the three terminal states. -/
theorem decideApplication_status_terminal (income : Option ℚ)
    (amount term : ℚ) :
    (Backend.decideApplication income amount term).1
        = Backend.Status.inadmisible ∨
      (Backend.decideApplication income amount term).1
        = Backend.Status.rechazada ∨
      (Backend.decideApplication income amount term).1
        = Backend.Status.aprobada := by
  cases hb : Backend.isAdmissible income amount
  · rw [decideApplication_neg income amount term hb]
    left
    rfl
  · rw [decideApplication_pos income amount term hb]
    by_cases h55 : 55 ≤ Backend.computeScore income amount term
    · right; right
      simp [h55]
    · right; left
      simp [h55]

/-- Field lookups on the 201 response object. -/
theorem lookup_responseJson (id : ℕ) (st : Backend.Status) (sc : Option ℤ) :
    List.lookup "id" (Backend.responseJson id st sc)
        = some (Backend.JsonValue.jnum id) ∧
      List.lookup "status" (Backend.responseJson id st sc)
        = some (Backend.JsonValue.jstr (Backend.statusText st)) ∧
      List.lookup "scoring" (Backend.responseJson id st sc)
        = some (match sc with
            | some s => Backend.JsonValue.jnum s
            | none => Backend.JsonValue.jnull) := by
  refine ⟨?_, ?_, ?_⟩ <;> simp [Backend.responseJson, List.lookup]

/-- A concrete email check used to instantiate witnesses: accepts every
string (generous to the claims, so no failure is ever due to the abstract
email format). -/
def acceptAllEmails : String → Bool := fun _ => true

/-- Scenario A payload: income 1000000, amount 1500000, term 24. -/
def payloadA : Backend.Payload :=
  ⟨some "12345678-9", some "Juan Soto", some "juan@mail.cl",
    some 1500000, some 24, some 1000000⟩

/-- Scenario C payload with `income` present and equal to 0. -/
def payloadC0 : Backend.Payload :=
  ⟨some "11111111-1", some "Ana Rojas", some "ana@mail.cl",
    some 500000, some 12, some 0⟩

/-- A payload whose `rut` is shorter than the 3-character minimum. -/
def payloadShortRut : Backend.Payload :=
  ⟨some "ab", some "Ana Rojas", some "ana@mail.cl",
    some 500000, some 12, none⟩

/-- C10: when the payload fails `ApplySchema` validation the handler answers
with the structured `invalid_payload` error at once: the decision rules are
never invoked (flag `false`) and the database is unchanged. -/
theorem claim_C10_validation_gate (emailOk : String → Bool)
    (body : Backend.Payload) (db : Backend.DB)
    (hv : Backend.validate emailOk body = none) :
    Backend.applyHandler emailOk body db
      = (Backend.HandlerAnswer.invalidPayload, db, false) := by
  unfold Backend.applyHandler
  rw [hv]

/-- Witness for C10: a payload with a 2-character `rut` is rejected with no
side effects on an empty database. -/
theorem claim_C10_witness :
    Backend.applyHandler acceptAllEmails payloadShortRut Backend.DB.empty
      = (Backend.HandlerAnswer.invalidPayload, Backend.DB.empty, false) :=
  claim_C10_validation_gate acceptAllEmails payloadShortRut Backend.DB.empty
    (by decide)

/-- C5 as stated is refuted: a submission with `amount = 500000`, `term = 12`
and `income` present and equal to 0 does not reach the decision step.
`ApplySchema` declares `income: z.number().positive().optional()`, so the
value 0 fails validation and the handler answers `invalid_payload` with the
database unchanged — not the claimed `inadmisible` decision. -/
theorem claim_C5_counterexample :
    Backend.validate acceptAllEmails payloadC0 = none ∧
      Backend.applyHandler acceptAllEmails payloadC0 Backend.DB.empty
        = (Backend.HandlerAnswer.invalidPayload, Backend.DB.empty, false) := by
  exact ⟨by decide, by decide⟩

/-- C5 amended: a submission with `amount = 500000`, `term = 12` and `income`
absent passes validation and is decided `inadmisible` with null score; when
`income` is present it must be strictly positive, so the same submission with
`income = 0` is rejected by validation instead. -/
theorem claim_C5_amended_scenario (emailOk : String → Bool)
    (rut full_name email : String) (db : Backend.DB)
    (h1 : 3 ≤ rut.length) (h2 : 3 ≤ full_name.length)
    (h3 : emailOk email = true) :
    (Backend.applyHandler emailOk
        ⟨some rut, some full_name, some email, some 500000, some 12, none⟩
        db).1
      = Backend.HandlerAnswer.created
          (Backend.responseJson db.nextId Backend.Status.inadmisible none) ∧
    Backend.validate emailOk
        ⟨some rut, some full_name, some email, some 500000, some 12, some 0⟩
      = none := by
  constructor
  · have hval : Backend.validate emailOk
        ⟨some rut, some full_name, some email, some 500000, some 12, none⟩
        = some ⟨rut, full_name, email, 500000, 12, none⟩ := by
      simp only [Backend.validate]
      rw [if_pos]
      exact ⟨h1, h2, h3, by norm_num, by norm_num, by norm_num, rfl⟩
    rw [applyHandler_valid_answer emailOk _ db _ hval]
    show Backend.HandlerAnswer.created
        (Backend.responseJson db.nextId
          (Backend.decideApplication none 500000 12).1
          (Backend.decideApplication none 500000 12).2) = _
    rw [decideApplication_neg none 500000 12 (by decide)]
  · simp only [Backend.validate]
    rw [if_neg]
    intro h
    exact absurd h.2.2.2.2.2.2 (by decide)

/-- Witness for the amended C5 at a concrete payload. -/
theorem claim_C5_witness :
    (Backend.applyHandler acceptAllEmails
        ⟨some "11111111-1", some "Ana Rojas", some "ana@mail.cl",
          some 500000, some 12, none⟩
        Backend.DB.empty).1
      = Backend.HandlerAnswer.created
          (Backend.responseJson Backend.DB.empty.nextId
            Backend.Status.inadmisible none) ∧
    Backend.validate acceptAllEmails
        ⟨some "11111111-1", some "Ana Rojas", some "ana@mail.cl",
          some 500000, some 12, some 0⟩
      = none :=
  claim_C5_amended_scenario acceptAllEmails "11111111-1" "Ana Rojas"
    "ana@mail.cl" Backend.DB.empty (by decide) (by decide) (by decide)

/-- C6 as stated is refuted: for the concrete scenario-A submission the 201
response object carries no field named `score` (the field is `scoring`), and
its `status` value is the string `"aprobada"`, which is none of
`"inadmissible"`, `"rejected"`, `"approved"`. -/
theorem claim_C6_counterexample :
    (Backend.applyHandler acceptAllEmails payloadA Backend.DB.empty).1
        = Backend.HandlerAnswer.created
            (Backend.responseJson 1 Backend.Status.aprobada (some 76)) ∧
      List.lookup "score"
          (Backend.responseJson 1 Backend.Status.aprobada (some 76)) = none ∧
      List.lookup "status"
          (Backend.responseJson 1 Backend.Status.aprobada (some 76))
        = some (Backend.JsonValue.jstr "aprobada") ∧
      "aprobada" ≠ "inadmissible" ∧ "aprobada" ≠ "rejected" ∧
      "aprobada" ≠ "approved" := by
  refine ⟨?_, by decide, by decide, by decide, by decide, by decide⟩
  have hval : Backend.validate acceptAllEmails payloadA
      = some ⟨"12345678-9", "Juan Soto", "juan@mail.cl", 1500000, 24,
          some 1000000⟩ := by decide
  rw [applyHandler_valid_answer acceptAllEmails payloadA Backend.DB.empty _
    hval]
  have hadm : Backend.isAdmissible (some 1000000) 1500000 = true := by
    simp only [Backend.isAdmissible, Option.getD_some]
    rw [if_neg (by norm_num : ¬((1000000 : ℚ) = 0))]
    simp only [decide_eq_true_eq]
    norm_num
  have hscore : Backend.computeScore (some 1000000) 1500000 24 = 76 := by
    simp only [Backend.computeScore, Option.getD_some]
    norm_num [round_eq, min_def, max_def]
  show Backend.HandlerAnswer.created
      (Backend.responseJson Backend.DB.empty.nextId
        (Backend.decideApplication (some 1000000) 1500000 24).1
        (Backend.decideApplication (some 1000000) 1500000 24).2) = _
  rw [decideApplication_pos _ _ _ hadm, hscore]
  norm_num
  rfl

/-- C6 amended: for every successfully decided submission the 201 response
object has an `id` field with the assigned identifier, a `status` field whose
value is one of the strings `"inadmisible"`, `"rechazada"`, `"aprobada"`, and
a field named `scoring` holding an integer or null. -/
theorem claim_C6_amended_response_shape (emailOk : String → Bool)
    (body : Backend.Payload) (db : Backend.DB) (p : Backend.ParsedPayload)
    (hv : Backend.validate emailOk body = some p) :
    ∃ json, (Backend.applyHandler emailOk body db).1
        = Backend.HandlerAnswer.created json ∧
      List.lookup "id" json = some (Backend.JsonValue.jnum db.nextId) ∧
      (List.lookup "status" json
          = some (Backend.JsonValue.jstr "inadmisible") ∨
        List.lookup "status" json
          = some (Backend.JsonValue.jstr "rechazada") ∨
        List.lookup "status" json
          = some (Backend.JsonValue.jstr "aprobada")) ∧
      (List.lookup "scoring" json = some Backend.JsonValue.jnull ∨
        ∃ k : ℤ, List.lookup "scoring" json
          = some (Backend.JsonValue.jnum k)) := by
  refine ⟨Backend.responseJson db.nextId
      (Backend.decideApplication p.income p.amount p.term_months).1
      (Backend.decideApplication p.income p.amount p.term_months).2,
    applyHandler_valid_answer emailOk body db p hv,
    (lookup_responseJson _ _ _).1, ?_, ?_⟩
  · have hst := (lookup_responseJson db.nextId
      (Backend.decideApplication p.income p.amount p.term_months).1
      (Backend.decideApplication p.income p.amount p.term_months).2).2.1
    rcases decideApplication_status_terminal p.income p.amount p.term_months
      with h | h | h
    · left
      rw [hst, h]
      rfl
    · right; left
      rw [hst, h]
      rfl
    · right; right
      rw [hst, h]
      rfl
  · cases hc : (Backend.decideApplication p.income p.amount p.term_months).2
    · left
      exact (lookup_responseJson _ _ none).2.2
    · right
      exact ⟨_, (lookup_responseJson _ _ (some _)).2.2⟩

/-- Witness for the amended C6 at the concrete scenario-A submission. -/
theorem claim_C6_witness :
    ∃ json,
      (Backend.applyHandler acceptAllEmails payloadA Backend.DB.empty).1
          = Backend.HandlerAnswer.created json ∧
        List.lookup "id" json
          = some (Backend.JsonValue.jnum Backend.DB.empty.nextId) ∧
        (List.lookup "status" json
            = some (Backend.JsonValue.jstr "inadmisible") ∨
          List.lookup "status" json
            = some (Backend.JsonValue.jstr "rechazada") ∨
          List.lookup "status" json
            = some (Backend.JsonValue.jstr "aprobada")) ∧
        (List.lookup "scoring" json = some Backend.JsonValue.jnull ∨
          ∃ k : ℤ, List.lookup "scoring" json
            = some (Backend.JsonValue.jnum k)) :=
  claim_C6_amended_response_shape acceptAllEmails payloadA Backend.DB.empty
    ⟨"12345678-9", "Juan Soto", "juan@mail.cl", 1500000, 24, some 1000000⟩
    (by decide)
